import Mathlib

/-!
Shallow embedding of `apps/proxy/models.py` from django-sspanel.

Database rows become Lean structures; querysets become explicit lists passed
as arguments; the current time and the liveness timeout (`c.NODE_TIME_OUT`,
whose defining module `apps/constants.py` is not part of the sources) are
explicit integer parameters.  Fallible Python code (attribute access on a
dict, missing one-to-one relation) is embedded with `Except`.
-/

namespace SSPanel

/-- Python-level errors that the embedded code can raise. -/
inductive PyError where
  | attributeError : String → PyError
  | relatedObjectDoesNotExist : String → PyError
deriving Repr, DecidableEq

/-- Row of `SSConfig`: cipher `method` and the nullable `multi_user_port`
(`IntegerField(null=True)`), embedded as `Option Int`. -/
structure SSConfig where
  method : String
  multi_user_port : Option Int
deriving Repr, DecidableEq

/-- Row of `ProxyNode` (with its `BaseNodeModel` fields and the reverse
one-to-one `ss_config`, which exists only for ss nodes).  `enlarge_scale` is a
`DecimalField` with one decimal place; it is embedded as the integer number of
tenths, so the Python value `Decimal("1.0")` is `10`. -/
structure ProxyNode where
  id : Nat
  name : String
  server : String
  enable : Bool
  node_type : String
  info : String
  level : Nat
  country : String
  used_traffic : Int
  total_traffic : Int
  enlarge_scale : Int
  sequence : Nat
  ss_config : Option SSConfig
deriving Repr, DecidableEq

/-- The fields of the external `User` record that
`ProxyNode.get_ss_node_config` reads through `.values(...)`. -/
structure User where
  id : Nat
  level : Nat
  ss_port : Int
  ss_password : String
  total_traffic : Int
  upload_traffic : Int
  download_traffic : Int
deriving Repr, DecidableEq

/-- One element of the `configs["users"]` list built by
`ProxyNode.get_ss_node_config`. -/
structure SSUserConfig where
  user_id : Nat
  port : Int
  password : String
  enable : Bool
  method : String
deriving Repr, DecidableEq

/-- Return value of `ProxyNode.get_proxy_configs`: either the ss dict
`\x7b"users": [...]\x7d` or the bare empty dict `\x7b\x7d` returned for
non-ss node types.  The two Python dicts compare unequal, hence two distinct
constructors. -/
inductive ProxyConfigs where
  | ssUsers : List SSUserConfig → ProxyConfigs
  | emptyDict : ProxyConfigs
deriving Repr, DecidableEq

/-- Port chosen inside the loop of `get_ss_node_config`.  The Python code is
`if ss_config.multi_user_port: port = ss_config.multi_user_port` (so `None`
and `0` are both falsy) `else: port = port = user.ss_port` — but `user` there
is a dict produced by `.values(...)`, so the attribute access `user.ss_port`
raises `AttributeError` at run time. -/
def ssPortForUser (ssc : SSConfig) : Except PyError Int :=
  match ssc.multi_user_port with
  | some p =>
      if p != 0 then Except.ok p
      else Except.error (PyError.attributeError "dict object has no attribute ss_port")
  | none => Except.error (PyError.attributeError "dict object has no attribute ss_port")

/-- Record appended for one user in the loop of `get_ss_node_config`:
`enable = self.enable and user total_traffic > (download + upload)`. -/
def mkSSUserConfig (node : ProxyNode) (ssc : SSConfig) (port : Int) (u : User) :
    SSUserConfig :=
  { user_id := u.id
    port := port
    password := u.ss_password
    enable := node.enable && decide (u.total_traffic > u.download_traffic + u.upload_traffic)
    method := ssc.method }

/-- The per-user loop body of `get_ss_node_config`, over the already-filtered
queryset. -/
def buildSSUserConfigs (node : ProxyNode) (ssc : SSConfig) :
    List User → Except PyError (List SSUserConfig)
  | [] => Except.ok []
  | u :: rest =>
      match ssPortForUser ssc with
      | Except.error e => Except.error e
      | Except.ok port =>
          match buildSSUserConfigs node ssc rest with
          | Except.error e => Except.error e
          | Except.ok tail => Except.ok (mkSSUserConfig node ssc port u :: tail)

/-- The queryset `User.objects.filter(level__gte=self.level)`. -/
def eligibleUsers (node : ProxyNode) (users : List User) : List User :=
  users.filter (fun u => decide (node.level ≤ u.level))

/-- Embedding of `ProxyNode.get_ss_node_config`.  Accessing `self.ss_config`
with no related `SSConfig` row raises in Django, hence the error branch. -/
def get_ss_node_config (node : ProxyNode) (users : List User) :
    Except PyError ProxyConfigs :=
  match node.ss_config with
  | none => Except.error (PyError.relatedObjectDoesNotExist "ProxyNode has no ss_config")
  | some ssc =>
      Except.map ProxyConfigs.ssUsers (buildSSUserConfigs node ssc (eligibleUsers node users))

/-- Embedding of `ProxyNode.get_proxy_configs`: ss nodes delegate to
`get_ss_node_config`; every other node type returns the empty dict. -/
def get_proxy_configs (node : ProxyNode) (users : List User) :
    Except PyError ProxyConfigs :=
  if node.node_type == "ss" then get_ss_node_config node users
  else Except.ok ProxyConfigs.emptyDict

/-- Row of `RelayNode` (with its `BaseNodeModel` fields). -/
structure RelayNode where
  name : String
  server : String
  enable : Bool
  isp : String
deriving Repr, DecidableEq

/-- Row of `RelayRule`, the directed edge joining a relay node to a proxy
node; the two foreign keys are embedded as the referenced rows. -/
structure RelayRule where
  proxy_node : ProxyNode
  relay_node : RelayNode
  relay_port : String
  listen_type : String
  transport_type : String
deriving Repr, DecidableEq

/-- Embedding of the property `RelayRule.enable`:
`self.relay_node.enable and self.proxy_node.enable`. -/
def RelayRule.enable (r : RelayRule) : Bool :=
  r.relay_node.enable && r.proxy_node.enable

/-- Rendering of the one-decimal-place `Decimal` stored in
`ProxyNode.enlarge_scale` the way Python's f-string renders it
(for tenths `15` this is the string `1.5`). -/
def decimalOneStr (tenths : Int) : String :=
  (if tenths < 0 then "-" else "")
    ++ toString (tenths.natAbs / 10) ++ "." ++ toString (tenths.natAbs % 10)

/-- Embedding of the property `RelayRule.remark`: the base label
`relayName->proxyName(proxyType)`, with the suffix `-<scale>倍` appended when
`enlarge_scale != Decimal(1.0)` (tenths `10`). -/
def RelayRule.remark (r : RelayRule) : String :=
  let name := r.relay_node.name ++ "->" ++ r.proxy_node.name
    ++ "(" ++ r.proxy_node.node_type ++ ")"
  if r.proxy_node.enlarge_scale != 10 then
    name ++ "-" ++ decimalOneStr r.proxy_node.enlarge_scale ++ "倍"
  else name

/-- Row of `NodeOnlineLog`: a heartbeat sample.  `created_at` (from
`BaseLogModel`) is embedded as an integer timestamp in seconds. -/
structure NodeOnlineLog where
  proxy_node_id : Nat
  online_user_count : Int
  tcp_connections_count : Int
  created_at : Int
deriving Repr, DecidableEq

/-- Embedding of the property `NodeOnlineLog.online`:
`utils.get_current_datetime().subtract(seconds=c.NODE_TIME_OUT) < self.created_at`.
`now` is the current time and `timeout` the constant `c.NODE_TIME_OUT`;
`apps/constants.py` is not among the sources, so per the spec the timeout is a
fixed configurable window length, kept here as an explicit parameter. -/
def NodeOnlineLog.online (log : NodeOnlineLog) (now timeout : Int) : Bool :=
  decide (now - timeout < log.created_at)

/-- Most recent element of a list of samples by `created_at` (ties keep the
earlier row, as a stable descending `order_by` would). -/
def latestOf : List NodeOnlineLog → Option NodeOnlineLog
  | [] => none
  | x :: xs =>
      match latestOf xs with
      | none => some x
      | some y => if y.created_at > x.created_at then some y else some x

/-- Embedding of `NodeOnlineLog.get_latest_log`: the row table is the explicit
list `logs`; the queryset filters on the node id and takes the most recent row
by `created_at`. -/
def get_latest_log (logs : List NodeOnlineLog) (proxy_node : Nat) :
    Option NodeOnlineLog :=
  latestOf (logs.filter (fun l => l.proxy_node_id == proxy_node))

/-- Dict built by `NodeOnlineLog.get_latest_online_log_info`. -/
structure OnlineLogInfo where
  online : Bool
  online_user_count : Int
  tcp_connections_count : Int
deriving Repr, DecidableEq

/-- Embedding of `NodeOnlineLog.get_latest_online_log_info`: starts from the
all-zero default dict and fills it in only when a latest log exists and that
log's `online` property is true. -/
def get_latest_online_log_info (logs : List NodeOnlineLog) (proxy_node : Nat)
    (now timeout : Int) : OnlineLogInfo :=
  match get_latest_log logs proxy_node with
  | some log =>
      if log.online now timeout then
        { online := true
          online_user_count := log.online_user_count
          tcp_connections_count := log.tcp_connections_count }
      else { online := false, online_user_count := 0, tcp_connections_count := 0 }
  | none => { online := false, online_user_count := 0, tcp_connections_count := 0 }

/-- Insertion step of a stable sort by `sequence`: a row is placed before the
first row with a `sequence` not smaller than its own. -/
def insertBySequence (n : ProxyNode) : List ProxyNode → List ProxyNode
  | [] => [n]
  | x :: xs =>
      if x.sequence < n.sequence then x :: insertBySequence n xs
      else n :: x :: xs

/-- Stable insertion sort by `sequence`, embedding `order_by("sequence")`. -/
def sortBySequence : List ProxyNode → List ProxyNode
  | [] => []
  | x :: xs => insertBySequence x (sortBySequence xs)

/-- Embedding of `ProxyNode.get_active_nodes`:
`filter(enable=True).order_by("sequence")`. -/
def get_active_nodes (nodes : List ProxyNode) : List ProxyNode :=
  sortBySequence (nodes.filter (fun n => n.enable))

/-- Embedding of `NodeOnlineLog.get_all_node_online_user_count`: for every
active node, add the latest log's `online_user_count` whenever a log exists —
the source checks only `if log:`, never the log's freshness. -/
def get_all_node_online_user_count (nodes : List ProxyNode)
    (logs : List NodeOnlineLog) : Int :=
  (get_active_nodes nodes).foldl
    (fun count node =>
      match get_latest_log logs node.id with
      | some log => count + log.online_user_count
      | none => count)
    0

/-- Modelled from the spec: `fleetOnlineUserCount()` as §4.4 describes it —
sums `onlineUserCount` across all active nodes' latest sample, treating nodes
with no sample or a stale sample as contributing zero.  This is the
specification-side function that claim C4 compares the source against. -/
def fleetOnlineUserCountSpec (nodes : List ProxyNode) (logs : List NodeOnlineLog)
    (now timeout : Int) : Int :=
  (get_active_nodes nodes).foldl
    (fun count node =>
      match get_latest_log logs node.id with
      | some log =>
          if log.online now timeout then count + log.online_user_count else count
      | none => count)
    0

/-- Base label shared by both branches of `RelayRule.remark`:
`relayName->proxyName(proxyType)`. -/
def relayBaseLabel (r : RelayRule) : String :=
  r.relay_node.name ++ "->" ++ r.proxy_node.name
    ++ "(" ++ r.proxy_node.node_type ++ ")"

/-- Concrete ss node with a shared multi-user port, used to exercise C1. -/
def nodeW1 : ProxyNode :=
  { id := 1, name := "n1", server := "s1", enable := true, node_type := "ss"
    info := "", level := 0, country := "CN", used_traffic := 0
    total_traffic := 1000, enlarge_scale := 10, sequence := 1
    ss_config := some { method := "aes-256-gcm", multi_user_port := some 8388 } }

/-- Concrete user whose consumed traffic exactly equals the quota. -/
def userW1 : User :=
  { id := 11, level := 0, ss_port := 1011, ss_password := "p1"
    total_traffic := 100, upload_traffic := 60, download_traffic := 40 }

/-- Config entry that `get_ss_node_config nodeW1 [userW1]` produces. -/
def entryW1 : SSUserConfig :=
  { user_id := 11, port := 8388, password := "p1", enable := false
    method := "aes-256-gcm" }

/-- Concrete ss node with a shared multi-user port, used to exercise C2. -/
def nodeW2a : ProxyNode :=
  { id := 2, name := "n2a", server := "s2", enable := true, node_type := "ss"
    info := "", level := 0, country := "CN", used_traffic := 0
    total_traffic := 1000, enlarge_scale := 10, sequence := 1
    ss_config := some { method := "aes-256-gcm", multi_user_port := some 8388 } }

/-- Concrete ss node whose `SSConfig.multi_user_port` is NULL, used to show
the per-user-port branch of C2 raising. -/
def nodeW2b : ProxyNode :=
  { id := 3, name := "n2b", server := "s2", enable := true, node_type := "ss"
    info := "", level := 0, country := "CN", used_traffic := 0
    total_traffic := 1000, enlarge_scale := 10, sequence := 1
    ss_config := some { method := "aes-256-gcm", multi_user_port := none } }

/-- Concrete eligible user with remaining quota, used to exercise C2. -/
def userW2 : User :=
  { id := 21, level := 0, ss_port := 1021, ss_password := "p2"
    total_traffic := 100, upload_traffic := 1, download_traffic := 2 }

/-- Config entry that `get_ss_node_config nodeW2a [userW2]` produces. -/
def entryW2 : SSUserConfig :=
  { user_id := 21, port := 8388, password := "p2", enable := true
    method := "aes-256-gcm" }

/-- Concrete trojan node, used to exercise C3. -/
def nodeW3 : ProxyNode :=
  { id := 5, name := "n3", server := "s3", enable := true, node_type := "trojan"
    info := "", level := 0, country := "CN", used_traffic := 0
    total_traffic := 1000, enlarge_scale := 10, sequence := 1
    ss_config := none }

/-- Concrete active node, used to exercise C4. -/
def nodeW4 : ProxyNode :=
  { id := 4, name := "n4", server := "s4", enable := true, node_type := "ss"
    info := "", level := 0, country := "CN", used_traffic := 0
    total_traffic := 1000, enlarge_scale := 10, sequence := 1
    ss_config := none }

/-- Concrete stale heartbeat sample for `nodeW4`: with current time `1000`
and timeout `300` its age far exceeds the window. -/
def logW4 : NodeOnlineLog :=
  { proxy_node_id := 4, online_user_count := 7, tcp_connections_count := 3
    created_at := 100 }

/-- Concrete DISABLED ss node with a shared multi-user port, used to
exercise C7. -/
def nodeW7 : ProxyNode :=
  { id := 7, name := "n7", server := "s7", enable := false, node_type := "ss"
    info := "", level := 0, country := "CN", used_traffic := 0
    total_traffic := 1000, enlarge_scale := 10, sequence := 1
    ss_config := some { method := "chacha20", multi_user_port := some 7000 } }

/-- Concrete user with plenty of remaining quota, used to exercise C7. -/
def userW7 : User :=
  { id := 71, level := 0, ss_port := 1071, ss_password := "p7"
    total_traffic := 1000, upload_traffic := 1, download_traffic := 2 }

/-- Config entry that `get_ss_node_config nodeW7 [userW7]` produces. -/
def entryW7 : SSUserConfig :=
  { user_id := 71, port := 7000, password := "p7", enable := false
    method := "chacha20" }

/-- Concrete proxy node with the identity rate multiplier `1.0`. -/
def proxyW8a : ProxyNode :=
  { id := 8, name := "P", server := "s8", enable := true, node_type := "ss"
    info := "", level := 0, country := "CN", used_traffic := 0
    total_traffic := 1000, enlarge_scale := 10, sequence := 1
    ss_config := none }

/-- Concrete proxy node with rate multiplier `1.5`. -/
def proxyW8b : ProxyNode :=
  { id := 9, name := "P", server := "s9", enable := true, node_type := "ss"
    info := "", level := 0, country := "CN", used_traffic := 0
    total_traffic := 1000, enlarge_scale := 15, sequence := 1
    ss_config := none }

/-- Concrete relay node, used to exercise C8. -/
def relayW8 : RelayNode :=
  { name := "R", server := "r8", enable := true, isp := "BGP" }

/-- Concrete relay rule whose proxy has the identity multiplier. -/
def ruleW8a : RelayRule :=
  { proxy_node := proxyW8a, relay_node := relayW8, relay_port := "443"
    listen_type := "raw", transport_type := "raw" }

/-- Concrete relay rule whose proxy has multiplier `1.5`. -/
def ruleW8b : RelayRule :=
  { proxy_node := proxyW8b, relay_node := relayW8, relay_port := "443"
    listen_type := "raw", transport_type := "raw" }

/-- Concrete enabled ss node with a shared multi-user port, used to
exercise C9. -/
def nodeW9 : ProxyNode :=
  { id := 6, name := "n9", server := "s9", enable := true, node_type := "ss"
    info := "", level := 0, country := "CN", used_traffic := 0
    total_traffic := 1000, enlarge_scale := 10, sequence := 1
    ss_config := some { method := "aes-256-gcm", multi_user_port := some 9000 } }

/-- Concrete user whose consumed traffic strictly exceeds the quota. -/
def userW9 : User :=
  { id := 91, level := 0, ss_port := 1091, ss_password := "p9"
    total_traffic := 100, upload_traffic := 70, download_traffic := 40 }

/-- Config entry that `get_ss_node_config nodeW9 [userW9]` produces. -/
def entryW9 : SSUserConfig :=
  { user_id := 91, port := 9000, password := "p9", enable := false
    method := "aes-256-gcm" }

/-- Concrete heartbeat sample whose age with current time `1000` and timeout
`300` equals the window exactly, used to exercise C10. -/
def logW10 : NodeOnlineLog :=
  { proxy_node_id := 10, online_user_count := 1, tcp_connections_count := 1
    created_at := 700 }

/-- Relation between a generated config entry and the user it was generated
from: the id is copied and the enable flag is the node's enable flag
conjoined with the strict quota check. -/
def EntryOfUser (node : ProxyNode) (e : SSUserConfig) (u : User) : Prop :=
  e.user_id = u.id ∧
  e.enable = (node.enable
    && decide (u.total_traffic > u.download_traffic + u.upload_traffic))

/-- A successful run of the per-user loop relates every produced entry to the
user at the same position. -/
theorem buildSSUserConfigs_forall₂ (node : ProxyNode) (ssc : SSConfig)
    (us : List User) (es : List SSUserConfig)
    (h : buildSSUserConfigs node ssc us = Except.ok es) :
    List.Forall₂ (EntryOfUser node) es us := by
  induction us generalizing es with
  | nil =>
      simp only [buildSSUserConfigs] at h
      cases h
      exact List.Forall₂.nil
  | cons u rest ih =>
      simp only [buildSSUserConfigs] at h
      split at h
      · exact absurd h (by simp)
      · split at h
        · exact absurd h (by simp)
        · cases h
          exact List.Forall₂.cons ⟨rfl, rfl⟩ (ih _ (by assumption))

/-- A successful `get_ss_node_config` relates its entries positionally to the
eligible users. -/
theorem get_ss_node_config_forall₂ (node : ProxyNode) (users : List User)
    (entries : List SSUserConfig)
    (h : get_ss_node_config node users = Except.ok (ProxyConfigs.ssUsers entries)) :
    List.Forall₂ (EntryOfUser node) entries (eligibleUsers node users) := by
  simp only [get_ss_node_config] at h
  split at h
  · exact absurd h (by simp)
  · rename_i ssc hsc
    cases hb : buildSSUserConfigs node ssc (eligibleUsers node users) with
    | error e => rw [hb] at h; exact absurd h (by simp [Except.map])
    | ok es =>
        rw [hb] at h
        simp only [Except.map, Except.ok.injEq, ProxyConfigs.ssUsers.injEq] at h
        cases h
        exact buildSSUserConfigs_forall₂ node ssc _ _ hb

/-- Every element on the left of a `Forall₂` is related to some element on
the right. -/
theorem forall₂_exists_right {α β : Type} {R : α → β → Prop} :
    ∀ {es : List α} {us : List β}, List.Forall₂ R es us →
      ∀ e ∈ es, ∃ u ∈ us, R e u := by
  intro es us h
  induction h with
  | nil => intro e he; cases he
  | cons hr _ ih =>
      intro e he
      rcases List.mem_cons.mp he with he | he
      · subst he; exact ⟨_, List.mem_cons_self _ _, hr⟩
      · rcases ih e he with ⟨u, hu, hru⟩
        exact ⟨u, List.mem_cons_of_mem _ hu, hru⟩

/-- C1: for every eligible user of an ss node whose consumed traffic exactly
equals the quota (`upload_traffic + download_traffic = total_traffic`), the
config entry generated for that user (the entry paired with the user at the
same position of the eligible-user list) has `enable = false`, because the
quota check is the strict inequality
`total_traffic > download_traffic + upload_traffic` conjoined with the node's
enable flag. -/
theorem quota_equality_entry_disabled (node : ProxyNode) (users : List User)
    (entries : List SSUserConfig)
    (h : get_ss_node_config node users = Except.ok (ProxyConfigs.ssUsers entries)) :
    ∀ pr ∈ entries.zip (eligibleUsers node users),
      pr.2.total_traffic = pr.2.upload_traffic + pr.2.download_traffic →
      pr.1.enable = false := by
  intro pr hmem heq
  obtain ⟨e, u⟩ := pr
  dsimp only at heq
  have hf := get_ss_node_config_forall₂ node users entries h
  obtain ⟨-, hen⟩ := (List.forall₂_iff_zip.mp hf).2 hmem
  rw [hen]
  have hd : decide (u.total_traffic > u.download_traffic + u.upload_traffic)
      = false := by
    simp only [decide_eq_false_iff_not, gt_iff_lt, not_lt]
    omega
  rw [hd, Bool.and_false]

/-- Witness for C1: the user whose quota of 100 exactly equals the consumed
60 + 40 gets a disabled entry. -/
theorem quota_equality_entry_disabled_witness : entryW1.enable = false :=
  quota_equality_entry_disabled nodeW1 [userW1] [entryW1] rfl
    (entryW1, userW1) (by decide) (by decide)

/-- C2: the claim says both port branches succeed — the shared multi-user
port when the node declares one, the user's own ss port otherwise.  The
multi-user-port branch does succeed with the shared port, but the other
branch raises `AttributeError`: the loop variable is a dict produced by
`.values(...)` and the source reads `user.ss_port` instead of
`user["ss_port"]`, so generation fails for every node without a multi-user
port that has at least one eligible user. -/
theorem ss_port_dict_attribute_error :
    get_ss_node_config nodeW2a [userW2]
      = Except.ok (ProxyConfigs.ssUsers [entryW2]) ∧
    get_ss_node_config nodeW2b [userW2]
      = Except.error
          (PyError.attributeError "dict object has no attribute ss_port") :=
  ⟨rfl, rfl⟩

/-- C3: requesting proxy configs for a node whose type is not ss returns the
bare empty dict, which differs from every successful ss generation — in
particular from the zero-eligible-users output, the ss dict with an empty
users list. -/
theorem unsupported_type_distinct_result (node : ProxyNode) (users : List User)
    (h : node.node_type ≠ "ss") :
    get_proxy_configs node users = Except.ok ProxyConfigs.emptyDict ∧
    ∀ es : List SSUserConfig,
      (Except.ok ProxyConfigs.emptyDict : Except PyError ProxyConfigs)
        ≠ Except.ok (ProxyConfigs.ssUsers es) := by
  constructor
  · have hb : (node.node_type == "ss") = false := by simp [h]
    simp [get_proxy_configs, hb]
  · intro es hcontra
    simp at hcontra

/-- Witness for C3: a trojan node yields the empty dict. -/
theorem unsupported_type_distinct_result_witness :
    get_proxy_configs nodeW3 [] = Except.ok ProxyConfigs.emptyDict :=
  (unsupported_type_distinct_result nodeW3 [] (by decide)).1

/-- C7: when a node's enable flag is false, every entry of a successfully
generated ss config for that node has `enable = false`, regardless of the
individual user's remaining quota. -/
theorem disabled_node_entries_disabled (node : ProxyNode) (users : List User)
    (entries : List SSUserConfig)
    (hn : node.enable = false)
    (h : get_ss_node_config node users = Except.ok (ProxyConfigs.ssUsers entries)) :
    ∀ e ∈ entries, e.enable = false := by
  intro e he
  have hf := get_ss_node_config_forall₂ node users entries h
  obtain ⟨u, -, -, hen⟩ := forall₂_exists_right hf e he
  rw [hen, hn, Bool.false_and]

/-- Witness for C7: on the disabled node, the user with 997 of 1000 bytes
left still gets a disabled entry. -/
theorem disabled_node_entries_disabled_witness : entryW7.enable = false :=
  disabled_node_entries_disabled nodeW7 [userW7] [entryW7] rfl rfl
    entryW7 (by decide)

/-- Counterexample to C9: an eligible user whose consumed traffic
(70 + 40) exceeds the quota (100) is NOT omitted from the generated config —
the config for the node contains an entry carrying that user's id. -/
theorem exhausted_user_entry_present :
    get_ss_node_config nodeW9 [userW9]
      = Except.ok (ProxyConfigs.ssUsers [entryW9]) ∧
    entryW9.user_id = userW9.id ∧
    userW9.total_traffic ≤ userW9.upload_traffic + userW9.download_traffic :=
  ⟨rfl, rfl, by decide⟩

/-- C9 amended: an eligible user whose quota is exhausted still appears in
the generated ss config — one entry per eligible user, positionally — but
with `enable = false`; the silence-is-deny behaviour is carried by the flag,
not by omission. -/
theorem exhausted_user_entry_disabled (node : ProxyNode) (users : List User)
    (entries : List SSUserConfig)
    (h : get_ss_node_config node users = Except.ok (ProxyConfigs.ssUsers entries)) :
    entries.length = (eligibleUsers node users).length ∧
    ∀ pr ∈ entries.zip (eligibleUsers node users),
      pr.2.total_traffic ≤ pr.2.upload_traffic + pr.2.download_traffic →
      pr.1.enable = false := by
  have hf := get_ss_node_config_forall₂ node users entries h
  refine ⟨hf.length_eq, ?_⟩
  intro pr hmem hle
  obtain ⟨e, u⟩ := pr
  dsimp only at hle
  obtain ⟨-, hen⟩ := (List.forall₂_iff_zip.mp hf).2 hmem
  rw [hen]
  have hd : decide (u.total_traffic > u.download_traffic + u.upload_traffic)
      = false := by
    simp only [decide_eq_false_iff_not, gt_iff_lt, not_lt]
    omega
  rw [hd, Bool.and_false]

/-- Witness for the amended C9: the over-quota user's entry exists and is
disabled. -/
theorem exhausted_user_entry_disabled_witness : entryW9.enable = false :=
  (exhausted_user_entry_disabled nodeW9 [userW9] [entryW9] rfl).2
    (entryW9, userW9) (by decide) (by decide)

/-- C5: a relay rule's enable value is true exactly when both the relay
node's and the proxy node's enable flags are true; the iff settles all four
boolean combinations of the two endpoint flags. -/
theorem relay_rule_enable_iff (r : RelayRule) :
    RelayRule.enable r = true ↔
      (r.relay_node.enable = true ∧ r.proxy_node.enable = true) := by
  simp [RelayRule.enable]

/-- C8: the relay rule label is the base string
`relayName->proxyName(proxyType)` exactly when the proxy's rate multiplier
equals 1.0 (ten tenths); otherwise the label is that base string with the
multiplier suffix appended, and in that case it differs from the bare base
string, so the suffix is present iff `enlarge_scale != 1.0`. -/
theorem remark_multiplier_suffix (r : RelayRule) :
    (r.proxy_node.enlarge_scale = 10 → RelayRule.remark r = relayBaseLabel r) ∧
    (r.proxy_node.enlarge_scale ≠ 10 →
      RelayRule.remark r
          = relayBaseLabel r ++ "-"
            ++ decimalOneStr r.proxy_node.enlarge_scale ++ "倍" ∧
      RelayRule.remark r ≠ relayBaseLabel r) := by
  constructor
  · intro h10
    simp [RelayRule.remark, relayBaseLabel, h10]
  · intro hne
    have hb : (r.proxy_node.enlarge_scale != 10) = true := by
      simpa using hne
    have hr : RelayRule.remark r
        = relayBaseLabel r ++ "-"
          ++ decimalOneStr r.proxy_node.enlarge_scale ++ "倍" := by
      simp [RelayRule.remark, relayBaseLabel, hb]
    refine ⟨hr, ?_⟩
    rw [hr]
    intro hcontra
    have hl := congrArg String.length hcontra
    simp only [String.length_append] at hl
    have h1 : ("-" : String).length = 1 := rfl
    have h2 : ("倍" : String).length = 1 := rfl
    rw [h1, h2] at hl
    omega

/-- Witness for C8: with multiplier 1.0 the label is the bare base string;
with multiplier 1.5 the suffix `-1.5倍` is appended. -/
theorem remark_multiplier_suffix_witness :
    RelayRule.remark ruleW8a = "R->P(ss)" ∧
    RelayRule.remark ruleW8b = "R->P(ss)-1.5倍" := by
  constructor
  · exact (remark_multiplier_suffix ruleW8a).1 (by decide)
  · exact ((remark_multiplier_suffix ruleW8b).2 (by decide)).1

/-- The latest-of computation returns nothing exactly on the empty list. -/
theorem latestOf_eq_none_iff (l : List NodeOnlineLog) :
    latestOf l = none ↔ l = [] := by
  cases l with
  | nil => simp [latestOf]
  | cons x xs =>
      constructor
      · intro h
        cases hxs : latestOf xs with
        | none => simp only [latestOf, hxs] at h; cases h
        | some y =>
            simp only [latestOf, hxs] at h
            split at h <;> cases h
      · intro h
        exact absurd h (List.cons_ne_nil x xs)

/-- The latest-of computation returns a member of the list whose
`created_at` is maximal. -/
theorem latestOf_spec (l : List NodeOnlineLog) (log : NodeOnlineLog)
    (h : latestOf l = some log) :
    log ∈ l ∧ ∀ x ∈ l, x.created_at ≤ log.created_at := by
  induction l generalizing log with
  | nil => cases h
  | cons a as ih =>
      cases hxs : latestOf as with
      | none =>
          simp only [latestOf, hxs] at h
          cases h
          have hnil : as = [] := (latestOf_eq_none_iff as).mp hxs
          subst hnil
          refine ⟨List.mem_singleton.mpr rfl, ?_⟩
          intro x hx
          rcases List.mem_singleton.mp hx with rfl
          exact le_refl _
      | some y =>
          simp only [latestOf, hxs] at h
          obtain ⟨hy_mem, hy_max⟩ := ih y hxs
          by_cases hgt : y.created_at > a.created_at
          · rw [if_pos hgt] at h
            cases h
            refine ⟨List.mem_cons_of_mem _ hy_mem, ?_⟩
            intro x hx
            rcases List.mem_cons.mp hx with rfl | hx
            · exact le_of_lt hgt
            · exact hy_max x hx
          · rw [if_neg hgt] at h
            cases h
            refine ⟨List.mem_cons_self _ _, ?_⟩
            intro x hx
            rcases List.mem_cons.mp hx with rfl | hx
            · exact le_refl _
            · exact le_trans (hy_max x hx) (not_lt.mp hgt)

/-- C6: the liveness query reports online exactly when some heartbeat sample
for the node exists and the most recent such sample (one with maximal
`created_at` among the node's samples) is within the timeout window of the
current time; with no sample, or only stale samples, it reports offline. -/
theorem node_online_iff (logs : List NodeOnlineLog) (proxy_node : Nat)
    (now timeout : Int) :
    (get_latest_online_log_info logs proxy_node now timeout).online = true ↔
    ∃ log ∈ logs, log.proxy_node_id = proxy_node ∧
      (∀ l ∈ logs, l.proxy_node_id = proxy_node →
        l.created_at ≤ log.created_at) ∧
      now - timeout < log.created_at := by
  constructor
  · intro h
    cases hl : get_latest_log logs proxy_node with
    | none => simp [get_latest_online_log_info, hl] at h
    | some m =>
        simp only [get_latest_online_log_info, hl] at h
        cases hon : NodeOnlineLog.online m now timeout with
        | false => rw [hon] at h; simp at h
        | true =>
            have hl' : latestOf
                (logs.filter (fun l => l.proxy_node_id == proxy_node))
                = some m := hl
            obtain ⟨hmem, hmax⟩ := latestOf_spec _ m hl'
            have hmem' := List.mem_filter.mp hmem
            refine ⟨m, hmem'.1, by simpa using hmem'.2, ?_, ?_⟩
            · intro l hli hlid
              exact hmax l (List.mem_filter.mpr ⟨hli, by simpa using hlid⟩)
            · simpa [NodeOnlineLog.online] using hon
  · rintro ⟨log, hmem, hid, hmax, hfresh⟩
    have hfil : log ∈ logs.filter (fun l => l.proxy_node_id == proxy_node) :=
      List.mem_filter.mpr ⟨hmem, by simpa using hid⟩
    cases hl : get_latest_log logs proxy_node with
    | none =>
        exfalso
        have hl' : latestOf
            (logs.filter (fun l => l.proxy_node_id == proxy_node))
            = none := hl
        have hempty := (latestOf_eq_none_iff _).mp hl'
        rw [hempty] at hfil
        cases hfil
    | some m =>
        have hl' : latestOf
            (logs.filter (fun l => l.proxy_node_id == proxy_node))
            = some m := hl
        have hspec := latestOf_spec _ m hl'
        have hmf := List.mem_filter.mp hspec.1
        have hm_le : m.created_at ≤ log.created_at :=
          hmax m hmf.1 (by simpa using hmf.2)
        have hlog_le : log.created_at ≤ m.created_at := hspec.2 log hfil
        have hfresh_m : now - timeout < m.created_at :=
          lt_of_lt_of_le hfresh hlog_le
        have hon : NodeOnlineLog.online m now timeout = true := by
          simp [NodeOnlineLog.online, hfresh_m]
        simp only [get_latest_online_log_info, hl, hon]
        rfl

/-- C10: the liveness window boundary is exclusive — a heartbeat sample is
counted online exactly when `now - timeout` is strictly earlier than its
`created_at`, so a sample whose age equals the timeout is offline. -/
theorem online_window_boundary (log : NodeOnlineLog) (now timeout : Int) :
    (NodeOnlineLog.online log now timeout = true ↔
      now - timeout < log.created_at) ∧
    (log.created_at = now - timeout →
      NodeOnlineLog.online log now timeout = false) := by
  constructor
  · simp [NodeOnlineLog.online]
  · intro h
    simp [NodeOnlineLog.online, h]

/-- Witness for C10: with the current time 1000 and timeout 300, the sample
created at 700 (age exactly the timeout) is offline. -/
theorem online_window_boundary_witness :
    NodeOnlineLog.online logW10 1000 300 = false :=
  (online_window_boundary logW10 1000 300).2 (by decide)

/-- Accumulating the latest log's user count over a node list equals the
accumulator plus the sum of per-node contributions. -/
theorem foldl_latest_count_eq_sum (logs : List NodeOnlineLog)
    (l : List ProxyNode) (a : Int) :
    l.foldl
      (fun count node =>
        match get_latest_log logs node.id with
        | some log => count + log.online_user_count
        | none => count) a
    = a + (l.map (fun n =>
        match get_latest_log logs n.id with
        | some log => log.online_user_count
        | none => 0)).sum := by
  induction l generalizing a with
  | nil => simp
  | cons n rest ih =>
      simp only [List.foldl_cons, List.map_cons, List.sum_cons]
      cases hg : get_latest_log logs n.id with
      | some log => simp only [hg]; rw [ih]; ring
      | none => simp only [hg]; rw [ih]; ring

/-- Counterexample to C4: with one active node whose only heartbeat sample
is stale (created at 100, current time 1000, timeout 300), the fleet-wide
count computed by the source is 7 — the stale sample's full count — while the
behaviour the claim describes would contribute zero. -/
theorem fleet_count_stale_counterexample :
    get_all_node_online_user_count [nodeW4] [logW4] = 7 ∧
    fleetOnlineUserCountSpec [nodeW4] [logW4] 1000 300 = 0 ∧
    NodeOnlineLog.online logW4 1000 300 = false :=
  ⟨rfl, rfl, rfl⟩

/-- C4 amended: the fleet-wide online user count sums each active node's
latest sample's `online_user_count` with no freshness condition at all — the
computation takes no clock input — and only a node with no sample contributes
zero. -/
theorem fleet_count_sums_latest_ignoring_freshness (nodes : List ProxyNode)
    (logs : List NodeOnlineLog) :
    get_all_node_online_user_count nodes logs =
      ((get_active_nodes nodes).map (fun n =>
        match get_latest_log logs n.id with
        | some log => log.online_user_count
        | none => 0)).sum := by
  simp only [get_all_node_online_user_count]
  rw [foldl_latest_count_eq_sum]
  ring

end SSPanel
